import Mathlib

/-!
Shallow embedding of the openclaw-frontend-librechat customization layer:
the React side-panel components (tools, memory, skills, cron jobs) from
src/client and src/unnamed/part_000, and the documented session-key /
abort protocol of the companion proxy (modelled from the specification,
since the proxy implementation is not part of this repository).
-/

namespace OpenClaw

/-! ## JS string helpers, modelling the exact JavaScript operations used -/

/-- Model of JavaScript String.prototype.toLowerCase, applied characterwise. -/
def jsToLower (s : String) : String :=
  ⟨s.data.map Char.toLower⟩

/-- Does the needle occur at the start of the haystack (character lists)? -/
def startsWithChars : List Char → List Char → Bool
  | [], _ => true
  | _ :: _, [] => false
  | a :: as, b :: bs => a = b && startsWithChars as bs

/-- Does the needle occur anywhere inside the haystack (character lists)? -/
def listIncludes (needle : List Char) : List Char → Bool
  | [] => needle.isEmpty
  | c :: cs => startsWithChars needle (c :: cs) || listIncludes needle cs

/-- Model of JavaScript hay.includes(needle): substring occurrence. -/
def jsIncludes (hay needle : String) : Bool :=
  listIncludes needle.data hay.data

/-- Model of the JavaScript expression `v || fallback` where v is a string
field that may be absent (undefined) or empty (falsy). -/
def jsFalsyOr (v : Option String) (fallback : String) : String :=
  match v with
  | some s => if s = "" then fallback else s
  | none => fallback

/-- Model of JavaScript a.slice(-k): the final min(length, k) elements. -/
def jsSliceLast (k : Nat) (l : List α) : List α :=
  l.drop (l.length - k)

/-! ## Data model of the status endpoint response (from the TS interfaces) -/

/-- Skill record, from the Skill interface in SkillsAccordion/SkillsList. -/
structure Skill where
  name : String
  description : String
  skillMd : String
deriving DecidableEq

/-- Schedule field of a cron job, from the CronJob interface. -/
structure CronSchedule where
  kind : String
  expr : Option String
  everyMs : Option Int
deriving DecidableEq

/-- Payload field of a cron job, from the CronJob interface. -/
structure CronPayload where
  kind : String
  model : Option String
deriving DecidableEq

/-- Health field of a cron job, from the CronJob interface. -/
structure CronHealth where
  lastStatus : String
  lastDuration : Int
  recentRuns : Int
  recentFailures : Int
deriving DecidableEq

/-- Cron job record, from the CronJob interface in CronJobsAccordion. -/
structure CronJob where
  id : String
  name : String
  enabled : Bool
  schedule : CronSchedule
  payload : CronPayload
  health : Option CronHealth
deriving DecidableEq

/-- Tools field of the status response, as read by ToolsPanel. -/
structure ToolsStatus where
  toolsMd : Option String
deriving DecidableEq

/-- Memory field of the status response, as read by SueloMemoryPanel. -/
structure MemoryStatus where
  memoryMd : Option String
  koMd : Option String
deriving DecidableEq

/-- The JSON body returned by the status endpoint, as the four panels read
it: every field may be absent, and `otherFields` stands for any additional
fields of the response that no panel reads. -/
structure SueloStatus where
  tools : Option ToolsStatus
  memory : Option MemoryStatus
  skills : Option (List Skill)
  crons : Option (List CronJob)
  otherFields : List (String × String)
deriving DecidableEq

/-! ## Panel reads of the status response

Each function below transcribes the `.then((data) => ...)` handler of the
corresponding component's mount effect. -/

/-- ToolsPanel: `setContent(data.tools?.toolsMd || fallback)` with the
fallback text "No TOOLS.md found". -/
def toolsPanelContent (r : SueloStatus) : String :=
  jsFalsyOr (r.tools.bind fun t => t.toolsMd) "No TOOLS.md found"

/-- SueloMemoryPanel: the pair (memoryMd, koMd) stored by `setMemory`. -/
def memoryPanelContent (r : SueloStatus) : String × String :=
  (jsFalsyOr (r.memory.bind fun m => m.memoryMd) "No MEMORY.md found",
   jsFalsyOr (r.memory.bind fun m => m.koMd) "No ko.md found")

/-- SkillsAccordion: `setSkills(data.skills || [])`. -/
def skillsPanelItems (r : SueloStatus) : List Skill :=
  r.skills.getD []

/-- CronJobsAccordion: `setJobs((data.crons || []).slice(-100).reverse())`. -/
def cronPanelJobs (r : SueloStatus) : List CronJob :=
  (jsSliceLast 100 (r.crons.getD [])).reverse

/-! ## Network actions of each component

Each component's mount effect and event handlers are transcribed as lists
of primitive UI actions, so that the requests they issue can be read off. -/

/-- An HTTP request as issued by the browser fetch API. -/
structure HttpRequest where
  method : String
  url : String
deriving DecidableEq

/-- Model of `fetch(url)` with no init object: the method defaults to GET. -/
def jsFetch (url : String) : HttpRequest :=
  ⟨"GET", url⟩

/-- A primitive action performed by a component: issue a network request,
or update a piece of local component state via a setter. -/
inductive UiAction where
  | request (req : HttpRequest)
  | setLocalState (setter : String)
deriving DecidableEq

/-- The single status endpoint URL shared by all four panels. -/
def sueloStatusUrl : String := "/suelo-api/api/suelo-status"

/-- Mount effect of CronJobsAccordion: one fetch, then setJobs/setLoading. -/
def cronJobsMountActions : List UiAction :=
  [.request (jsFetch "/suelo-api/api/suelo-status"),
   .setLocalState "jobs", .setLocalState "loading"]

/-- Mount effect of SkillsAccordion: one fetch, then setSkills/setLoading. -/
def skillsMountActions : List UiAction :=
  [.request (jsFetch "/suelo-api/api/suelo-status"),
   .setLocalState "skills", .setLocalState "loading"]

/-- Mount effect of ToolsPanel: one fetch, then setContent. -/
def toolsMountActions : List UiAction :=
  [.request (jsFetch "/suelo-api/api/suelo-status"),
   .setLocalState "content"]

/-- Mount effect of SueloMemoryPanel: one fetch, then setMemory. -/
def memoryMountActions : List UiAction :=
  [.request (jsFetch "/suelo-api/api/suelo-status"),
   .setLocalState "memory"]

/-- Search input onChange handler of both accordions: setSearch, setPage. -/
def searchChangeActions : List UiAction :=
  [.setLocalState "search", .setLocalState "page"]

/-- Next button onClick handler of both accordions: setPage only. -/
def nextClickActions : List UiAction :=
  [.setLocalState "page"]

/-- Previous button onClick handler of both accordions: setPage only. -/
def previousClickActions : List UiAction :=
  [.setLocalState "page"]

/-- The network requests an action list issues. -/
def requestsOf (actions : List UiAction) : List HttpRequest :=
  actions.filterMap fun a =>
    match a with
    | .request r => some r
    | .setLocalState _ => none

/-! ## Client-side search and pagination state machine

SkillsAccordion and CronJobsAccordion share this structure verbatim; the
item type and the filter predicate are the only differences, so the state
machine is parameterised over them. -/

/-- Local React state of an accordion: items (after fetch), loading flag,
search string and current page, with useState initial page 1. -/
structure PanelState (α : Type) where
  items : List α
  loading : Bool
  search : String
  page : Nat
deriving DecidableEq

/-- The perPage constant of both accordions. -/
def perPage : Nat := 10

/-- Math.ceil(n / perPage), the totalPages computation. -/
def totalPages (n : Nat) : Nat :=
  (n + (perPage - 1)) / perPage

/-- The filtered list: `items.filter(...)` with the panel's predicate. -/
def filteredItems (keep : String → α → Bool) (st : PanelState α) : List α :=
  st.items.filter (keep st.search)

/-- The displayed slice: `filtered.slice((page - 1) * perPage, page * perPage)`. -/
def paginatedItems (keep : String → α → Bool) (st : PanelState α) : List α :=
  ((filteredItems keep st).drop ((st.page - 1) * perPage)).take perPage

/-- hasPreviousPage prop: `page > 1`. -/
def hasPreviousPage (st : PanelState α) : Bool :=
  decide (1 < st.page)

/-- hasNextPage prop: `page < totalPages`. -/
def hasNextPage (keep : String → α → Bool) (st : PanelState α) : Bool :=
  decide (st.page < totalPages (filteredItems keep st).length)

/-- The Previous button's disabled attribute: `!hasPreviousPage || isLoading`. -/
def previousDisabled (st : PanelState α) : Bool :=
  !hasPreviousPage st || st.loading

/-- The Next button's disabled attribute: `!hasNextPage || isLoading`. -/
def nextDisabled (keep : String → α → Bool) (st : PanelState α) : Bool :=
  !hasNextPage keep st || st.loading

/-- A user operation on an accordion panel. -/
inductive PanelOp where
  | next
  | previous
  | search (q : String)

/-- One user operation applied to the panel state. A disabled button does
not fire its onClick handler, so next/previous apply only when enabled;
the handlers are `setPage(p => Math.min(totalPages, p + 1))`,
`setPage(p => Math.max(1, p - 1))`, and for the search input
`setSearch(value); setPage(1)`. -/
def applyOp (keep : String → α → Bool) (op : PanelOp) (st : PanelState α) :
    PanelState α :=
  match op with
  | .next =>
      if nextDisabled keep st then st
      else { st with
             page := min (totalPages (filteredItems keep st).length) (st.page + 1) }
  | .previous =>
      if previousDisabled st then st
      else { st with page := max 1 (st.page - 1) }
  | .search q => { st with search := q, page := 1 }

/-- A sequence of user operations applied in order. -/
def runOps (keep : String → α → Bool) (ops : List PanelOp) (st : PanelState α) :
    PanelState α :=
  ops.foldl (fun s op => applyOp keep op s) st

/-- CronJobsAccordion's filter predicate:
`job.name?.toLowerCase().includes(search.toLowerCase()) ||
 job.payload?.model?.toLowerCase().includes(search.toLowerCase())`.
An absent model makes the second disjunct undefined, hence falsy. -/
def cronMatches (search : String) (job : CronJob) : Bool :=
  jsIncludes (jsToLower job.name) (jsToLower search) ||
    match job.payload.model with
    | some m => jsIncludes (jsToLower m) (jsToLower search)
    | none => false

/-- SkillsAccordion's filter predicate:
`skill.name.toLowerCase().includes(search.toLowerCase()) ||
 skill.description.toLowerCase().includes(search.toLowerCase())`. -/
def skillMatches (search : String) (skill : Skill) : Bool :=
  jsIncludes (jsToLower skill.name) (jsToLower search) ||
    jsIncludes (jsToLower skill.description) (jsToLower search)

/-! ## Rendering helpers of the list components -/

/-- What a list component renders at top level. -/
inductive ListView where
  | message (text : String)
  | items (count : Nat)
deriving DecidableEq

/-- Top-level branches of SkillsList: loading, empty, or the item list. -/
def skillsListView (skills : List Skill) (isLoading : Bool) : ListView :=
  if isLoading then .message "Loading skills..."
  else if skills.length = 0 then .message "No skills found"
  else .items skills.length

/-- Top-level branches of CronJobsList: loading, empty, or the item list. -/
def cronJobsListView (jobs : List CronJob) (isLoading : Bool) : ListView :=
  if isLoading then .message "Loading cron jobs..."
  else if jobs.length = 0 then .message "No cron jobs found"
  else .items jobs.length

/-- The HealthBadge label: "No Data" when health is absent, "Unhealthy"
when recentFailures > 0, "Healthy" otherwise. -/
def healthBadgeLabel (health : Option CronHealth) : String :=
  match health with
  | none => "No Data"
  | some h => if h.recentFailures > 0 then "Unhealthy" else "Healthy"

/-- ToolsPanel catch handler: `setContent(fmt)` with fmt the error text. -/
def toolsFetchErrorContent (message : String) : String :=
  "Error: " ++ message

/-- SueloMemoryPanel catch handler: both tabs show the error text. -/
def memoryFetchErrorContent (message : String) : String × String :=
  ("Error: " ++ message, "Error: " ++ message)

/-- Catch handler of both accordions: log the error and `setLoading(false)`,
leaving the item list as it was. -/
def accordionFetchError (st : PanelState α) : PanelState α :=
  { st with loading := false }

/-! ## Session router and abort coordinator

The proxy implementing these lives outside this repository; the
definitions below are reconstructed from the specification and the
architecture document. -/

/-- A piece of a session-key template: literal text or a substitution
variable written between braces. -/
inductive TemplatePart where
  | lit (s : String)
  | var (name : String)
deriving DecidableEq

/-- The opening brace character of a template placeholder. -/
def braceOpen : Char := '\x7b'

/-- The closing brace character of a template placeholder. -/
def braceClose : Char := '\x7d'

/-- Scanner for session-key templates: literal text interleaved with
brace-delimited variable references. `litAcc` collects the current
literal run (reversed) and `varAcc`, when present, the current variable
name (reversed). -/
def parseTemplateLoop : List Char → List Char → Option (List Char) → List TemplatePart
  | [], [], none => []
  | [], litAcc, none => [.lit ⟨litAcc.reverse⟩]
  | [], _, some varAcc => [.var ⟨varAcc.reverse⟩]
  | c :: cs, litAcc, none =>
      if c = braceOpen then
        if litAcc = [] then parseTemplateLoop cs [] (some [])
        else .lit ⟨litAcc.reverse⟩ :: parseTemplateLoop cs [] (some [])
      else parseTemplateLoop cs (c :: litAcc) none
  | c :: cs, litAcc, some varAcc =>
      if c = braceClose then .var ⟨varAcc.reverse⟩ :: parseTemplateLoop cs litAcc none
      else parseTemplateLoop cs litAcc (some (c :: varAcc))

/-- Parse a session-key template string into its parts. -/
def parseTemplate (template : String) : List TemplatePart :=
  parseTemplateLoop template.data [] none

/-- Modelled from the spec: the error taxonomy of the session router,
whose implementation (the proxy) is not part of this repository.
InvalidConfiguration signals a template referencing an unsupplied
substitution variable. -/
inductive ResolveError where
  | invalidConfiguration (varName : String)
deriving DecidableEq

/-- Modelled from the spec: a configured endpoint as in librechat.yaml —
base URL, model name, and the session-key header template embedding the
conversation identifier. -/
structure EndpointConfig where
  baseURL : String
  model : String
  sessionKeyTemplate : String
deriving DecidableEq

/-- Substitute the conversation identifier for each `conversationId`
variable of a parsed template; any other variable is unsupplied and
yields InvalidConfiguration. -/
def renderParts (conversationId : String) : List TemplatePart → Except ResolveError String
  | [] => .ok ""
  | .lit s :: ps => (renderParts conversationId ps).map fun rest => s ++ rest
  | .var n :: ps =>
      if n = "conversationId" then
        (renderParts conversationId ps).map fun rest => conversationId ++ rest
      else .error (.invalidConfiguration n)

/-- Modelled from the spec: the session router's
`resolve(endpointConfig, conversationId) -> sessionKey` — a pure function
substituting the conversation identifier into the endpoint's session-key
template; its implementation (the proxy) is not part of this repository. -/
def resolve (cfg : EndpointConfig) (conversationId : String) : Except ResolveError String :=
  renderParts conversationId (parseTemplate cfg.sessionKeyTemplate)

/-- Acknowledgment of an abort request: fire-and-forget success. -/
inductive AbortAck where
  | success
deriving DecidableEq

/-- Modelled from the spec: the agent runtime's registry of run handles,
at most one active run per session key; the runtime is not part of this
repository. -/
structure RuntimeState where
  activeRuns : List String
deriving DecidableEq

/-- Modelled from the spec: the runtime's abort-run handler — cancel and
remove the run handle bound to the session key; an unknown key removes
nothing. -/
def abortRun (st : RuntimeState) (sessionKey : String) : RuntimeState :=
  ⟨st.activeRuns.filter fun k => !(k == sessionKey)⟩

/-- Modelled from the spec: the abort coordinator's
`explicitAbort(sessionKey)` — send the cancellation control message for
the session key and report success once it is sent; its implementation
(the proxy) is not part of this repository. -/
def explicitAbort (st : RuntimeState) (sessionKey : String) : RuntimeState × AbortAck :=
  (abortRun st sessionKey, .success)

/-- Spec-side notion for C8: the final k elements of a list, in their
original order (phrased independently of the code's slice(-100)). -/
def finalElems (l : List α) (k : Nat) : List α :=
  (l.reverse.take k).reverse

/-- A sample cron job used by concrete witnesses. -/
def sampleCronJob (i : String) : CronJob :=
  ⟨i, i, true, ⟨"interval", none, some 60000⟩, ⟨"agentTurn", some "claude"⟩, none⟩

/-! ## Helper lemmas -/

/-- startsWithChars decides the prefix relation. -/
theorem startsWithChars_iff (as bs : List Char) :
    startsWithChars as bs = true ↔ as <+: bs := by
  induction as generalizing bs with
  | nil => simp [startsWithChars]
  | cons a as ih =>
    cases bs with
    | nil => simp [startsWithChars]
    | cons b bs => simp [startsWithChars, ih, List.cons_prefix_cons]

/-- listIncludes decides the substring (infix) relation. -/
theorem listIncludes_iff (needle hay : List Char) :
    listIncludes needle hay = true ↔ needle <:+: hay := by
  induction hay with
  | nil => simp [listIncludes]
  | cons c cs ih =>
    simp [listIncludes, ih, startsWithChars_iff, List.infix_cons_iff]

/-- jsIncludes decides substring occurrence on the character lists. -/
theorem jsIncludes_eq_true_iff (hay needle : String) :
    jsIncludes hay needle = true ↔ needle.data <:+: hay.data :=
  listIncludes_iff needle.data hay.data

/-- The cron filter predicate, characterised: the lowercased search occurs
in the lowercased name, or the model is present and it occurs in the
lowercased model. -/
theorem cronMatches_eq_true_iff (search : String) (job : CronJob) :
    cronMatches search job = true ↔
      ((jsToLower search).data <:+: (jsToLower job.name).data ∨
        ∃ m, job.payload.model = some m ∧
          (jsToLower search).data <:+: (jsToLower m).data) := by
  cases hm : job.payload.model with
  | none => simp [cronMatches, hm, jsIncludes_eq_true_iff]
  | some m => simp [cronMatches, hm, jsIncludes_eq_true_iff]

/-- The skill filter predicate, characterised likewise. -/
theorem skillMatches_eq_true_iff (search : String) (skill : Skill) :
    skillMatches search skill = true ↔
      ((jsToLower search).data <:+: (jsToLower skill.name).data ∨
        (jsToLower search).data <:+: (jsToLower skill.description).data) := by
  simp [skillMatches, jsIncludes_eq_true_iff]

/-- The invariant maintained by the accordion state machine: the page is
at least 1 and at most max 1 totalPages of the current filtered list. -/
def PageInv (keep : String → α → Bool) (st : PanelState α) : Prop :=
  1 ≤ st.page ∧ st.page ≤ max 1 (totalPages (filteredItems keep st).length)

/-- Each user operation preserves the page invariant. -/
theorem pageInv_applyOp (keep : String → α → Bool) (op : PanelOp)
    (st : PanelState α) (h : PageInv keep st) :
    PageInv keep (applyOp keep op st) := by
  obtain ⟨h1, h2⟩ := h
  cases op with
  | search q =>
    refine ⟨le_refl 1, ?_⟩
    simp [applyOp]
  | next =>
    by_cases hd : nextDisabled keep st
    · simpa [applyOp, hd] using ⟨h1, h2⟩
    · have hlt : st.page < totalPages (st.items.filter (keep st.search)).length := by
        simp [nextDisabled, hasNextPage, filteredItems] at hd
        exact hd.1
      refine ⟨?_, ?_⟩ <;> simp [applyOp, hd, filteredItems] <;> omega
  | previous =>
    by_cases hd : previousDisabled st
    · simpa [applyOp, hd] using ⟨h1, h2⟩
    · have h2' : st.page ≤ max 1 (totalPages (st.items.filter (keep st.search)).length) := by
        simpa [filteredItems] using h2
      refine ⟨?_, ?_⟩ <;> simp [applyOp, hd, filteredItems] <;> omega

/-- Any sequence of user operations preserves the page invariant. -/
theorem pageInv_runOps (keep : String → α → Bool) (ops : List PanelOp)
    (st : PanelState α) (h : PageInv keep st) :
    PageInv keep (runOps keep ops st) := by
  induction ops generalizing st with
  | nil => exact h
  | cons op ops ih =>
    have hstep := pageInv_applyOp keep op st h
    simpa [runOps, List.foldl_cons] using ih _ hstep

/-! ## Claim theorems -/

/-- C1: every panel reads only its aggregated field of the status
response — ToolsPanel depends only on tools, SueloMemoryPanel only on
memory, the skills panel only on skills, the cron panel only on crons —
and all requests the panels issue are GET requests (read-only, no
write-back). -/
theorem panels_read_only_aggregated_fields :
    (∀ r r' : SueloStatus, r.tools = r'.tools →
      toolsPanelContent r = toolsPanelContent r') ∧
    (∀ r r' : SueloStatus, r.memory = r'.memory →
      memoryPanelContent r = memoryPanelContent r') ∧
    (∀ r r' : SueloStatus, r.skills = r'.skills →
      skillsPanelItems r = skillsPanelItems r') ∧
    (∀ r r' : SueloStatus, r.crons = r'.crons →
      cronPanelJobs r = cronPanelJobs r') ∧
    (∀ req ∈ requestsOf (toolsMountActions ++ memoryMountActions ++
        skillsMountActions ++ cronJobsMountActions), req.method = "GET") := by
  refine ⟨?_, ?_, ?_, ?_, ?_⟩
  · intro r r' h
    simp [toolsPanelContent, h]
  · intro r r' h
    simp [memoryPanelContent, h]
  · intro r r' h
    simp [skillsPanelItems, h]
  · intro r r' h
    simp [cronPanelJobs, h]
  · decide

/-- Witness for C1: two responses agreeing on the tools field but
differing elsewhere render the same tools content, and the shared status
request is a GET. -/
theorem panels_read_only_aggregated_fields_witness :
    toolsPanelContent ⟨some ⟨some "# TOOLS"⟩, none, none, none, []⟩ =
      toolsPanelContent ⟨some ⟨some "# TOOLS"⟩, some ⟨none, none⟩, some [],
        some [], [("extraField", "1")]⟩ ∧
    (jsFetch sueloStatusUrl).method = "GET" :=
  ⟨panels_read_only_aggregated_fields.1 _ _ rfl,
   panels_read_only_aggregated_fields.2.2.2.2 (jsFetch sueloStatusUrl) (by decide)⟩

/-- C2: each of the four panels issues exactly one fetch on mount, all to
the single status endpoint /suelo-api/api/suelo-status, and the search
and page-change handlers issue no network request at all. -/
theorem panels_fetch_once_same_endpoint :
    sueloStatusUrl = "/suelo-api/api/suelo-status" ∧
    requestsOf toolsMountActions = [jsFetch sueloStatusUrl] ∧
    requestsOf memoryMountActions = [jsFetch sueloStatusUrl] ∧
    requestsOf skillsMountActions = [jsFetch sueloStatusUrl] ∧
    requestsOf cronJobsMountActions = [jsFetch sueloStatusUrl] ∧
    requestsOf searchChangeActions = [] ∧
    requestsOf nextClickActions = [] ∧
    requestsOf previousClickActions = [] :=
  ⟨rfl, rfl, rfl, rfl, rfl, rfl, rfl, rfl⟩

/-- C5: session-key resolution is deterministic and free of hidden
state — the result depends only on the endpoint's session-key template
and the conversation identifier, so two calls with identical inputs
yield identical session keys. -/
theorem resolve_deterministic (cfg cfg' : EndpointConfig) (cid cid' : String)
    (ht : cfg.sessionKeyTemplate = cfg'.sessionKeyTemplate) (hc : cid = cid') :
    resolve cfg cid = resolve cfg' cid' := by
  simp [resolve, parseTemplate, ht, hc]

/-- Witness for C5: two configs sharing the template but differing in
base URL and model resolve the same conversation to the same key. -/
theorem resolve_deterministic_witness :
    resolve ⟨"http://host.docker.internal:18793/v1", "suelo",
        "librechat:{conversationId}"⟩ "abc123" =
      resolve ⟨"http://host.docker.internal:18791/v1", "devin",
        "librechat:{conversationId}"⟩ "abc123" :=
  resolve_deterministic _ _ _ _ rfl rfl

/-- C6: conversation "abc123" on the endpoint template
"librechat:{conversationId}" resolves to exactly "librechat:abc123": the
placeholder is substituted and the rest of the template kept verbatim. -/
theorem resolve_scenario_abc123 :
    resolve ⟨"http://host.docker.internal:18793/v1", "suelo",
        "librechat:{conversationId}"⟩ "abc123" =
      Except.ok "librechat:abc123" := rfl

/-- C7: explicitAbort on a session key with no active run handle is a
no-op that still returns success, and repeating it for the same session
key is safe (idempotent) and again returns success. -/
theorem explicit_abort_idempotent_noop (st : RuntimeState) (key : String)
    (h : key ∉ st.activeRuns) :
    explicitAbort st key = (st, AbortAck.success) ∧
    explicitAbort (explicitAbort st key).1 key = explicitAbort st key ∧
    (explicitAbort st key).2 = AbortAck.success := by
  refine ⟨?_, ?_, rfl⟩
  · have : st.activeRuns.filter (fun k => !(k == key)) = st.activeRuns := by
      refine List.filter_eq_self.mpr ?_
      intro a ha
      simp only [Bool.not_eq_true']
      exact beq_eq_false_iff_ne.mpr fun he => h (he ▸ ha)
    simp [explicitAbort, abortRun, this]
  · simp [explicitAbort, abortRun, List.filter_filter]

/-- Witness for C7: aborting a key that has no run handle leaves the
registry unchanged and acknowledges success. -/
theorem explicit_abort_idempotent_noop_witness :
    explicitAbort ⟨["librechat:other"]⟩ "librechat:abc123" =
      (⟨["librechat:other"]⟩, AbortAck.success) :=
  (explicit_abort_idempotent_noop ⟨["librechat:other"]⟩ "librechat:abc123"
    (by decide)).1

/-- C3: over any sequence of Next, Previous and search operations from
the initial page 1, the page stays at least 1; the displayed slice holds
at most perPage (10) items; Previous is disabled exactly when the page is
1 or the panel is loading; Next is disabled exactly when the page is at
least ceil(filteredLength / 10) or the panel is loading; an enabled Next
click clamps the page to ceil(filteredLength / 10), and a Previous click
never takes it below 1. -/
theorem pagination_invariants (α : Type) (keep : String → α → Bool)
    (st : PanelState α) (ops : List PanelOp) (h : st.page = 1) :
    1 ≤ (runOps keep ops st).page ∧
    (paginatedItems keep (runOps keep ops st)).length ≤ perPage ∧
    (previousDisabled (runOps keep ops st) =
      (decide ((runOps keep ops st).page = 1) || (runOps keep ops st).loading)) ∧
    (nextDisabled keep (runOps keep ops st) =
      (decide (totalPages (filteredItems keep (runOps keep ops st)).length ≤
        (runOps keep ops st).page) || (runOps keep ops st).loading)) ∧
    (nextDisabled keep (runOps keep ops st) = false →
      (applyOp keep PanelOp.next (runOps keep ops st)).page ≤
        totalPages (filteredItems keep (runOps keep ops st)).length) ∧
    1 ≤ (applyOp keep PanelOp.previous (runOps keep ops st)).page := by
  have hinv : PageInv keep (runOps keep ops st) := by
    refine pageInv_runOps keep ops st ⟨by omega, ?_⟩
    rw [h]
    exact Nat.le_max_left 1 _
  obtain ⟨h1, h2⟩ := hinv
  refine ⟨h1, ?_, ?_, ?_, ?_, ?_⟩
  · exact List.length_take_le _ _
  · by_cases hp : (runOps keep ops st).page = 1
    · simp [previousDisabled, hasPreviousPage, hp]
    · have hlt : 1 < (runOps keep ops st).page := by omega
      simp [previousDisabled, hasPreviousPage, hp, hlt]
  · by_cases hlt : (runOps keep ops st).page <
        totalPages (filteredItems keep (runOps keep ops st)).length
    · have hnle : ¬ (totalPages (filteredItems keep (runOps keep ops st)).length ≤
          (runOps keep ops st).page) := by omega
      simp [nextDisabled, hasNextPage, hlt, hnle]
    · have hle : totalPages (filteredItems keep (runOps keep ops st)).length ≤
          (runOps keep ops st).page := by omega
      simp [nextDisabled, hasNextPage, hlt, hle]
  · intro hnd
    simp only [applyOp, hnd, Bool.false_eq_true, if_false]
    simp [filteredItems]
  · by_cases hd : previousDisabled (runOps keep ops st)
    · simpa [applyOp, hd] using h1
    · simp [applyOp, hd]

/-- Witness for C3: a concrete cron panel with one job, after a Next, a
search edit and a Previous, still has page at least 1. -/
theorem pagination_invariants_witness :
    1 ≤ (runOps cronMatches [PanelOp.next, PanelOp.search "a", PanelOp.previous]
      ⟨[⟨"1", "daily report", true, ⟨"cron", some "0 8 * * *", none⟩,
         ⟨"agentTurn", some "claude"⟩, none⟩], false, "", 1⟩).page :=
  (pagination_invariants CronJob cronMatches _ _ rfl).1

/-- C4: the search filter keeps a cron job exactly when the lowercased
search occurs as a substring of the lowercased name or of the lowercased
payload model (absent model matching nothing), keeps a skill exactly when
it occurs in the lowercased name or description, and every search edit
resets the page to 1. -/
theorem search_filter_case_insensitive_substring :
    (∀ (jobs : List CronJob) (search : String) (job : CronJob),
      job ∈ jobs.filter (cronMatches search) ↔
        job ∈ jobs ∧
          ((jsToLower search).data <:+: (jsToLower job.name).data ∨
            ∃ m, job.payload.model = some m ∧
              (jsToLower search).data <:+: (jsToLower m).data)) ∧
    (∀ (skills : List Skill) (search : String) (skill : Skill),
      skill ∈ skills.filter (skillMatches search) ↔
        skill ∈ skills ∧
          ((jsToLower search).data <:+: (jsToLower skill.name).data ∨
            (jsToLower search).data <:+: (jsToLower skill.description).data)) ∧
    (∀ (st : PanelState CronJob) (q : String),
      (applyOp cronMatches (PanelOp.search q) st).page = 1) ∧
    (∀ (st : PanelState Skill) (q : String),
      (applyOp skillMatches (PanelOp.search q) st).page = 1) := by
  refine ⟨?_, ?_, ?_, ?_⟩
  · intro jobs search job
    rw [List.mem_filter, cronMatches_eq_true_iff]
  · intro skills search skill
    rw [List.mem_filter, skillMatches_eq_true_iff]
  · intro st q
    simp [applyOp]
  · intro st q
    simp [applyOp]

/-- C8: on a successful fetch the cron accordion stores min(n, 100) jobs:
the final min(n, 100) elements of the crons array, reversed. -/
theorem cron_store_last_100_reversed (r : SueloStatus) (crons : List CronJob)
    (h : r.crons = some crons) :
    (cronPanelJobs r).length = min crons.length 100 ∧
    cronPanelJobs r = (finalElems crons (min crons.length 100)).reverse := by
  constructor
  · simp [cronPanelJobs, jsSliceLast, h]
    omega
  · simp only [cronPanelJobs, jsSliceLast, h, Option.getD_some, finalElems,
      List.reverse_reverse, List.reverse_drop]
    congr 1
    omega

/-- Witness for C8: a two-job crons array is stored whole, reversed. -/
theorem cron_store_last_100_reversed_witness :
    (cronPanelJobs ⟨none, none, none, some [sampleCronJob "a", sampleCronJob "b"],
        []⟩).length =
      min ([sampleCronJob "a", sampleCronJob "b"] : List CronJob).length 100 ∧
    cronPanelJobs ⟨none, none, none, some [sampleCronJob "a", sampleCronJob "b"], []⟩ =
      (finalElems [sampleCronJob "a", sampleCronJob "b"]
        (min ([sampleCronJob "a", sampleCronJob "b"] : List CronJob).length 100)).reverse :=
  cron_store_last_100_reversed _ _ rfl

/-- C9: the health badge shows "No Data" exactly when health is absent;
with health present it shows "Unhealthy" exactly when recentFailures is
positive and "Healthy" exactly when recentFailures is zero or negative. -/
theorem health_badge_characterisation (health : Option CronHealth) :
    (healthBadgeLabel health = "No Data" ↔ health = none) ∧
    (∀ hd : CronHealth, health = some hd →
      ((healthBadgeLabel health = "Unhealthy" ↔ 0 < hd.recentFailures) ∧
       (healthBadgeLabel health = "Healthy" ↔ hd.recentFailures ≤ 0))) := by
  cases health with
  | none =>
    refine ⟨by simp [healthBadgeLabel], ?_⟩
    intro hd hcontra
    cases hcontra
  | some hd =>
    constructor
    · by_cases hf : 0 < hd.recentFailures <;> simp [healthBadgeLabel, hf]
    · intro hd' heq
      obtain rfl : hd = hd' := by injection heq
      by_cases hf : 0 < hd.recentFailures <;>
        simp [healthBadgeLabel, hf] <;> omega

/-- Witness for C9: a health record with no recent failures renders the
Healthy badge and not the Unhealthy one. -/
theorem health_badge_characterisation_witness :
    (healthBadgeLabel (some ⟨"ok", 120, 5, 0⟩) = "Unhealthy" ↔
      0 < (⟨"ok", 120, 5, 0⟩ : CronHealth).recentFailures) ∧
    (healthBadgeLabel (some ⟨"ok", 120, 5, 0⟩) = "Healthy" ↔
      (⟨"ok", 120, 5, 0⟩ : CronHealth).recentFailures ≤ 0) :=
  (health_badge_characterisation (some ⟨"ok", 120, 5, 0⟩)).2 ⟨"ok", 120, 5, 0⟩ rfl

/-- C10: absent or falsy fields render fixed placeholders — the tools
panel falls back to its placeholder, both memory tabs to theirs, the
list components show their empty messages — and fetch errors produce an
error text or clear the loading flag without touching the items. -/
theorem missing_fields_render_placeholders :
    (∀ r : SueloStatus,
      (r.tools.bind fun t => t.toolsMd) = none ∨
        (r.tools.bind fun t => t.toolsMd) = some "" →
      toolsPanelContent r = "No TOOLS.md found") ∧
    (∀ r : SueloStatus,
      (r.memory.bind fun m => m.memoryMd) = none ∨
        (r.memory.bind fun m => m.memoryMd) = some "" →
      (memoryPanelContent r).1 = "No MEMORY.md found") ∧
    (∀ r : SueloStatus,
      (r.memory.bind fun m => m.koMd) = none ∨
        (r.memory.bind fun m => m.koMd) = some "" →
      (memoryPanelContent r).2 = "No ko.md found") ∧
    skillsListView [] false = ListView.message "No skills found" ∧
    cronJobsListView [] false = ListView.message "No cron jobs found" ∧
    (∀ m : String, toolsFetchErrorContent m = "Error: " ++ m) ∧
    (∀ m : String, memoryFetchErrorContent m = ("Error: " ++ m, "Error: " ++ m)) ∧
    (∀ st : PanelState CronJob,
      (accordionFetchError st).loading = false ∧
      (accordionFetchError st).items = st.items) := by
  refine ⟨?_, ?_, ?_, by decide, by decide, fun m => rfl, fun m => rfl,
    fun st => ⟨rfl, rfl⟩⟩
  · intro r hcase
    rcases hcase with hc | hc <;> simp [toolsPanelContent, jsFalsyOr, hc]
  · intro r hcase
    rcases hcase with hc | hc <;> simp [memoryPanelContent, jsFalsyOr, hc]
  · intro r hcase
    rcases hcase with hc | hc <;> simp [memoryPanelContent, jsFalsyOr, hc]

/-- Witness for C10: a response with no tools field renders the tools
placeholder. -/
theorem missing_fields_render_placeholders_witness :
    toolsPanelContent ⟨none, none, none, none, []⟩ = "No TOOLS.md found" :=
  missing_fields_render_placeholders.1 ⟨none, none, none, none, []⟩ (Or.inl rfl)

end OpenClaw
